import Mathlib

/-!
Shallow embedding of the health-risk scoring core of the repository:
the files feature_mapper.py, health_scorer.py, models/heart_model.py and
models/obesity_model.py. Numbers are modelled as rationals; the Python
builtin round(x, n) is modelled by rounding to the nearest multiple of
10 ^ (-n) (no statement proved here depends on the tie-breaking rule).
Fallible Python operations (dict subscripting, attribute access on a
wrongly typed value, comparing a string with a number, dividing by zero)
are modelled with Except; the classifier capabilities (pickled sklearn
models) are external to the scoring core and their outputs (a probability,
a predicted class) enter the embedded functions as parameters.
-/

/-- Models the Python builtin round(x, 2): round to two decimal places. -/
def round2 (q : ℚ) : ℚ := ((round (q * 100) : ℤ) : ℚ) / 100

/-- Models the Python float format .1f: the signed number of tenths. -/
def tenths (q : ℚ) : ℤ := round (q * 10)

/-- Models the Python float format .1f as a string, used by the f-strings
of generate_recommendations. -/
def fmt1 (q : ℚ) : String :=
  (if tenths q < 0 then "-" else "") ++
    toString ((tenths q).natAbs / 10) ++ "." ++ toString ((tenths q).natAbs % 10)

/-- A loosely typed Python value as it appears in a UserRecord: numeric
(int and float collapsed to the rationals) or string. -/
inductive PyVal where
| num : ℚ → PyVal
| str : String → PyVal
deriving DecidableEq

/-- A Python dict with string keys and loosely typed values. -/
abbrev PyDict := List (String × PyVal)

/-- Association-list lookup by decidable key equality: the model of a
Python dict read. -/
def assocD {κ α : Type} [DecidableEq κ] (k : κ) : List (κ × α) → Option α
| [] => none
| (a, v) :: rest => if k = a then some v else assocD k rest

/-- Models Python dict.get(k, default). -/
def pyGet (d : PyDict) (k : String) (v : PyVal) : PyVal := (assocD k d).getD v

/-- Models the Python expression v.lower(): only strings have a lower
method; a numeric receiver raises AttributeError. -/
def pyLower : PyVal → Except String String
| PyVal.str s => Except.ok s.toLower
| PyVal.num _ => Except.error "AttributeError: lower"

/-- Models the Python comparison v > b against a numeric literal: comparing
a string with a number raises TypeError. -/
def pyGtNum : PyVal → ℚ → Except String Bool
| PyVal.num q, b => Except.ok (decide (b < q))
| PyVal.str _, _ => Except.error "TypeError: str-num comparison"

/-- Models the Python division v / c by a nonzero numeric literal: a string
numerator raises TypeError. -/
def pyDivNum : PyVal → ℚ → Except String ℚ
| PyVal.num q, c => Except.ok (q / c)
| PyVal.str _, _ => Except.error "TypeError: str division"

/-- A fully numeric feature dict, as consumed by the model scoring code. -/
abbrev Features := List (String × ℚ)

/-- Models Python dict.get(k, default) on a numeric feature dict. -/
def fget (f : Features) (k : String) (d : ℚ) : ℚ := (assocD k f).getD d

/-- The numeric entries of a loosely typed dict, for feeding a mapper
output into the numeric model scoring code. -/
def toNumFeatures (d : PyDict) : Features :=
  d.filterMap (fun kv =>
    match kv.2 with
    | PyVal.num q => some (kv.1, q)
    | PyVal.str _ => none)

namespace FeatureMapper

/-- Feature names required by the diabetes model (self.diabetes_features). -/
def diabetes_features : List String :=
  ["Pregnancies", "Glucose", "BloodPressure", "SkinThickness",
   "Insulin", "BMI", "DiabetesPedigreeFunction", "Age"]

/-- Feature names required by the heart model (self.heart_features). -/
def heart_features : List String :=
  ["age", "sex", "cp", "trestbps", "chol", "fbs",
   "restecg", "thalach", "exang", "oldpeak", "slope", "ca", "thal"]

/-- Feature names required by the hypertension model
(self.hypertension_features). -/
def hypertension_features : List String :=
  ["Age", "BMI", "Cholesterol", "Systolic_BP", "Diastolic_BP",
   "Smoking_Status", "Alcohol_Intake", "Physical_Activity_Level",
   "Family_History", "Diabetes", "Stress_Level", "Salt_Intake",
   "Sleep_Duration", "Heart_Rate", "LDL", "HDL", "Triglycerides",
   "Glucose", "Gender"]

/-- Feature names required by the obesity model (self.obesity_features). -/
def obesity_features : List String :=
  ["Gender", "Age", "Height", "Weight", "family_history_with_overweight",
   "FAVC", "FCVC", "NCP", "CAEC", "SMOKE", "CH2O", "SCC", "FAF", "TUE",
   "CALC", "MTRANS"]

/-- Embeds FeatureMapper.calculate_bmi applied to loosely typed operands:
height_m = height_cm / 100, then weight_kg / height_m ** 2, rounded to two
decimals. A string operand raises TypeError; height 0 raises
ZeroDivisionError. -/
def calculate_bmi : PyVal → PyVal → Except String ℚ
| PyVal.num h, PyVal.num w =>
    if h = 0 then Except.error "ZeroDivisionError"
    else Except.ok (round2 (w / (h / 100) ^ 2))
| _, _ => Except.error "TypeError: bmi operand"

/-- Embeds FeatureMapper.map_to_diabetes_features. The BMI default and the
family-history lower() call are evaluated eagerly, exactly as Python
evaluates the default argument of dict.get, so they can raise even when
the corresponding key is present. -/
def map_to_diabetes_features (user_data : PyDict) : Except String PyDict :=
  match calculate_bmi (pyGet user_data "height" (PyVal.num 170))
      (pyGet user_data "weight" (PyVal.num 70)) with
  | Except.error e => Except.error e
  | Except.ok bmiDefault =>
    match pyLower (pyGet user_data "family_history_diabetes" (PyVal.str "no")) with
    | Except.error e => Except.error e
    | Except.ok fh =>
      Except.ok
        [("Pregnancies", pyGet user_data "pregnancies" (PyVal.num 0)),
         ("Glucose", pyGet user_data "glucose" (pyGet user_data "fasting_glucose" (PyVal.num 100))),
         ("BloodPressure", pyGet user_data "blood_pressure" (pyGet user_data "systolic_bp" (PyVal.num 80))),
         ("SkinThickness", pyGet user_data "skin_thickness" (PyVal.num 20)),
         ("Insulin", pyGet user_data "insulin" (PyVal.num 80)),
         ("BMI", pyGet user_data "bmi" (PyVal.num bmiDefault)),
         ("DiabetesPedigreeFunction",
           pyGet user_data "diabetes_pedigree" (PyVal.num (if fh = "yes" then 0.5 else 0.2))),
         ("Age", pyGet user_data "age" (PyVal.num 30))]

/-- Embeds FeatureMapper.map_to_heart_features. The gender lower() call,
the fasting-glucose comparison and the angina lower() call can raise on a
wrongly typed value; a missing chest_pain_type key defaults to 0. -/
def map_to_heart_features (user_data : PyDict) : Except String PyDict :=
  match pyLower (pyGet user_data "gender" (PyVal.str "male")) with
  | Except.error e => Except.error e
  | Except.ok g =>
    let sex : ℚ := if g = "male" ∨ g = "m" ∨ g = "1" then 1 else 0
    match pyGtNum (pyGet user_data "fasting_glucose" (PyVal.num 100)) 120 with
    | Except.error e => Except.error e
    | Except.ok fgHigh =>
      match pyLower (pyGet user_data "exercise_induced_angina" (PyVal.str "no")) with
      | Except.error e => Except.error e
      | Except.ok ex =>
        Except.ok
          [("age", pyGet user_data "age" (PyVal.num 30)),
           ("sex", PyVal.num sex),
           ("cp", pyGet user_data "chest_pain_type" (PyVal.num 0)),
           ("trestbps", pyGet user_data "systolic_bp" (pyGet user_data "resting_bp" (PyVal.num 120))),
           ("chol", pyGet user_data "cholesterol" (PyVal.num 200)),
           ("fbs", PyVal.num (if fgHigh then 1 else 0)),
           ("restecg", pyGet user_data "resting_ecg" (PyVal.num 0)),
           ("thalach", pyGet user_data "max_heart_rate" (PyVal.num 150)),
           ("exang", PyVal.num (if ex = "yes" then 1 else 0)),
           ("oldpeak", pyGet user_data "st_depression" (PyVal.num 0)),
           ("slope", pyGet user_data "slope_st_segment" (PyVal.num 1)),
           ("ca", pyGet user_data "num_major_vessels" (PyVal.num 0)),
           ("thal", pyGet user_data "thalassemia" (PyVal.num 2))]

/-- Embeds FeatureMapper.map_to_hypertension_features. Only the eagerly
evaluated BMI default can raise. -/
def map_to_hypertension_features (user_data : PyDict) : Except String PyDict :=
  match calculate_bmi (pyGet user_data "height" (PyVal.num 170))
      (pyGet user_data "weight" (PyVal.num 70)) with
  | Except.error e => Except.error e
  | Except.ok bmiDefault =>
    Except.ok
      [("Age", pyGet user_data "age" (PyVal.num 30)),
       ("BMI", pyGet user_data "bmi" (PyVal.num bmiDefault)),
       ("Cholesterol", pyGet user_data "cholesterol" (PyVal.num 200)),
       ("Systolic_BP", pyGet user_data "systolic_bp" (PyVal.num 120)),
       ("Diastolic_BP", pyGet user_data "diastolic_bp" (PyVal.num 80)),
       ("Smoking_Status", pyGet user_data "smoking_status" (PyVal.str "Never")),
       ("Alcohol_Intake", pyGet user_data "alcohol_intake" (PyVal.str "None")),
       ("Physical_Activity_Level", pyGet user_data "physical_activity" (PyVal.str "Moderate")),
       ("Family_History", pyGet user_data "family_history_hypertension" (PyVal.str "No")),
       ("Diabetes", pyGet user_data "has_diabetes" (PyVal.str "No")),
       ("Stress_Level", pyGet user_data "stress_level" (PyVal.str "Moderate")),
       ("Salt_Intake", pyGet user_data "salt_intake" (PyVal.str "Moderate")),
       ("Sleep_Duration", pyGet user_data "sleep_hours" (PyVal.num 7)),
       ("Heart_Rate", pyGet user_data "resting_heart_rate" (PyVal.num 70)),
       ("LDL", pyGet user_data "ldl" (PyVal.num 100)),
       ("HDL", pyGet user_data "hdl" (PyVal.num 50)),
       ("Triglycerides", pyGet user_data "triglycerides" (PyVal.num 150)),
       ("Glucose", pyGet user_data "glucose" (pyGet user_data "fasting_glucose" (PyVal.num 100))),
       ("Gender", pyGet user_data "gender" (PyVal.str "Male"))]

/-- Embeds FeatureMapper.map_to_obesity_features. Only the height / 100
conversion to meters can raise (on a string height). -/
def map_to_obesity_features (user_data : PyDict) : Except String PyDict :=
  match pyDivNum (pyGet user_data "height" (PyVal.num 170)) 100 with
  | Except.error e => Except.error e
  | Except.ok heightM =>
    Except.ok
      [("Gender", pyGet user_data "gender" (PyVal.str "Male")),
       ("Age", pyGet user_data "age" (PyVal.num 30)),
       ("Height", PyVal.num heightM),
       ("Weight", pyGet user_data "weight" (PyVal.num 70)),
       ("family_history_with_overweight", pyGet user_data "family_history_overweight" (PyVal.str "no")),
       ("FAVC", pyGet user_data "frequent_high_caloric_food" (PyVal.str "no")),
       ("FCVC", pyGet user_data "vegetable_consumption_frequency" (PyVal.num 2)),
       ("NCP", pyGet user_data "num_main_meals" (PyVal.num 3)),
       ("CAEC", pyGet user_data "food_between_meals" (PyVal.str "Sometimes")),
       ("SMOKE", pyGet user_data "smokes" (PyVal.str "no")),
       ("CH2O", pyGet user_data "daily_water_consumption" (PyVal.num 2)),
       ("SCC", pyGet user_data "calorie_monitoring" (PyVal.str "no")),
       ("FAF", pyGet user_data "physical_activity_frequency" (PyVal.num 1)),
       ("TUE", pyGet user_data "tech_usage_time" (PyVal.num 1)),
       ("CALC", pyGet user_data "alcohol_consumption" (PyVal.str "no")),
       ("MTRANS", pyGet user_data "transportation_mode" (PyVal.str "Public_Transportation"))]

/-- Holds when a key, if present, is numeric and nonzero (the mappers
divide by the height). -/
def keyNumNZ (u : PyDict) (k : String) : Bool :=
  match assocD k u with
  | none => true
  | some (PyVal.num q) => decide (q ≠ 0)
  | some (PyVal.str _) => false

/-- Holds when a key, if present, is numeric. -/
def keyNum (u : PyDict) (k : String) : Bool :=
  match assocD k u with
  | none => true
  | some (PyVal.num _) => true
  | some (PyVal.str _) => false

/-- Holds when a key, if present, is a string. -/
def keyStr (u : PyDict) (k : String) : Bool :=
  match assocD k u with
  | none => true
  | some (PyVal.str _) => true
  | some (PyVal.num _) => false

/-- The fields on which the four mappers perform type-sensitive operations
are well typed: height, weight and fasting glucose numeric (height
nonzero), and the three fields receiving a lower() call strings. All other
fields are passed through untouched and may have any type. -/
def wellTypedUser (u : PyDict) : Bool :=
  keyNumNZ u "height" && keyNum u "weight" && keyNum u "fasting_glucose" &&
    keyStr u "gender" && keyStr u "family_history_diabetes" &&
    keyStr u "exercise_induced_angina"

end FeatureMapper

namespace HealthScorer

/-- The per-condition weight table self.weights. -/
def weights : List (String × ℚ) :=
  [("heart", 0.25), ("diabetes", 0.25), ("hypertension", 0.25), ("obesity", 0.25)]

/-- Weight lookup; every condition name is a key of the table. -/
def weightOf (k : String) : ℚ := (assocD k weights).getD 0

/-- The risk-level threshold table self.risk_thresholds. -/
def risk_thresholds : List (String × ℚ) :=
  [("low", 30), ("moderate", 50), ("high", 70), ("critical", 85)]

/-- Threshold lookup; every tier name is a key of the table. -/
def thresholdOf (k : String) : ℚ := (assocD k risk_thresholds).getD 0

/-- A risk-score dict mapping a condition name to a risk percentage. -/
abbrev RDict := List (String × ℚ)

/-- Models Python dict subscripting d[k] on a risk-score dict: KeyError
when the key is absent. -/
def rget (d : RDict) (k : String) : Except String ℚ :=
  match assocD k d with
  | some v => Except.ok v
  | none => Except.error ("KeyError: " ++ k)

/-- Embeds HealthScorer.calculate_composite_risk: the weighted sum of the
four condition scores, rounded to two decimals; subscripting a missing
condition raises KeyError. -/
def calculate_composite_risk (risk_scores : RDict) : Except String ℚ :=
  match rget risk_scores "heart" with
  | Except.error e => Except.error e
  | Except.ok h =>
    match rget risk_scores "diabetes" with
    | Except.error e => Except.error e
    | Except.ok d =>
      match rget risk_scores "hypertension" with
      | Except.error e => Except.error e
      | Except.ok hy =>
        match rget risk_scores "obesity" with
        | Except.error e => Except.error e
        | Except.ok o =>
          Except.ok (round2 (h * weightOf "heart" + d * weightOf "diabetes" +
            hy * weightOf "hypertension" + o * weightOf "obesity"))

/-- Embeds HealthScorer.calculate_health_score: 100 minus the composite
risk, rounded to two decimals. -/
def calculate_health_score (risk_scores : RDict) : Except String ℚ :=
  match calculate_composite_risk risk_scores with
  | Except.error e => Except.error e
  | Except.ok c => Except.ok (round2 (100 - c))

/-- Embeds HealthScorer.get_risk_level: the threshold ladder over
self.risk_thresholds. -/
def get_risk_level (risk_score : ℚ) : String :=
  if risk_score < thresholdOf "low" then "low"
  else if risk_score < thresholdOf "moderate" then "moderate"
  else if risk_score < thresholdOf "high" then "high"
  else if risk_score < thresholdOf "critical" then "very high"
  else "critical"

/-- Embeds HealthScorer.get_health_grade: the letter-grade ladder. -/
def get_health_grade (health_score : ℚ) : String :=
  if 90 ≤ health_score then "A+"
  else if 80 ≤ health_score then "A"
  else if 70 ≤ health_score then "B"
  else if 60 ≤ health_score then "C"
  else if 50 ≤ health_score then "D"
  else "F"

/-- Rank of a risk level in the severity order, for stating monotonicity
of get_risk_level. -/
def level_index : String → ℕ
| "low" => 0
| "moderate" => 1
| "high" => 2
| "very high" => 3
| "critical" => 4
| _ => 5

/-- The heart block of HealthScorer.generate_recommendations: branches on
the heart risk level. -/
def heart_recs (s : ℚ) : List String :=
  let level := get_risk_level s
  if level = "critical" ∨ level = "very high" then
    ["🫀 HEART HEALTH: " ++ (fmt1 s ++ "% risk - CRITICAL. Seek immediate medical attention."),
     "   - Schedule urgent cardiology appointment",
     "   - Monitor blood pressure and cholesterol daily",
     "   - Avoid strenuous activities until cleared by doctor"]
  else if level = "high" then
    ["🫀 HEART HEALTH: " ++ (fmt1 s ++ "% risk - High. Consult a cardiologist soon."),
     "   - Monitor blood pressure and cholesterol regularly",
     "   - Engage in 30+ minutes of cardio exercise daily",
     "   - Reduce saturated fat and sodium intake"]
  else if level = "moderate" then
    ["🫀 HEART HEALTH: " ++ (fmt1 s ++ "% risk - Moderate. Take preventive measures."),
     "   - Regular cardiovascular exercise (walking, cycling)",
     "   - Maintain healthy weight and cholesterol levels"]
  else if level = "low" then
    ["🫀 HEART HEALTH: " ++ (fmt1 s ++ "% risk - Low. Keep up the good work!"),
     "   - Continue healthy lifestyle habits"]
  else []

/-- The diabetes block of HealthScorer.generate_recommendations. -/
def diabetes_recs (s : ℚ) : List String :=
  let level := get_risk_level s
  if level = "critical" ∨ level = "very high" then
    ["🩸 DIABETES: " ++ (fmt1 s ++ "% risk - CRITICAL. Get tested immediately."),
     "   - Schedule urgent blood glucose test (HbA1c)",
     "   - Strictly limit sugar and refined carbs",
     "   - Consider consulting an endocrinologist"]
  else if level = "high" then
    ["🩸 DIABETES: " ++ (fmt1 s ++ "% risk - High. Get blood sugar tested."),
     "   - Monitor glucose levels regularly",
     "   - Reduce sugar and refined carbohydrate intake",
     "   - Increase fiber-rich foods and whole grains"]
  else if level = "moderate" then
    ["🩸 DIABETES: " ++ (fmt1 s ++ "% risk - Moderate. Focus on prevention."),
     "   - Maintain healthy weight through diet and exercise",
     "   - Limit sugary beverages and processed foods"]
  else if level = "low" then
    ["🩸 DIABETES: " ++ (fmt1 s ++ "% risk - Low. Excellent!"),
     "   - Maintain balanced diet with controlled portions"]
  else []

/-- The hypertension block of HealthScorer.generate_recommendations. -/
def hypertension_recs (s : ℚ) : List String :=
  let level := get_risk_level s
  if level = "critical" ∨ level = "very high" then
    ["💊 BLOOD PRESSURE: " ++ (fmt1 s ++ "% risk - CRITICAL. Check BP now!"),
     "   - Measure blood pressure immediately",
     "   - Strictly limit sodium (<1500mg/day)",
     "   - Avoid stress and seek medical help"]
  else if level = "high" then
    ["💊 BLOOD PRESSURE: " ++ (fmt1 s ++ "% risk - High. Monitor BP regularly."),
     "   - Reduce sodium intake (< 2000mg/day)",
     "   - Practice stress management techniques",
     "   - Avoid excessive alcohol and caffeine"]
  else if level = "moderate" then
    ["💊 BLOOD PRESSURE: " ++ (fmt1 s ++ "% risk - Moderate. Take preventive steps."),
     "   - Maintain regular sleep schedule (7-8 hours)",
     "   - Engage in regular physical activity"]
  else if level = "low" then
    ["💊 BLOOD PRESSURE: " ++ (fmt1 s ++ "% risk - Low. Great!"),
     "   - Continue healthy habits and regular exercise"]
  else []

/-- The obesity block of HealthScorer.generate_recommendations. -/
def obesity_recs (s : ℚ) : List String :=
  let level := get_risk_level s
  if level = "critical" ∨ level = "very high" then
    ["⚖️ WEIGHT MANAGEMENT: " ++ (fmt1 s ++ "% risk - CRITICAL. Urgent action needed."),
     "   - Consult healthcare provider for weight management plan",
     "   - Consider supervised weight loss program",
     "   - Address underlying health conditions"]
  else if level = "high" then
    ["⚖️ WEIGHT MANAGEMENT: " ++ (fmt1 s ++ "% risk - High. Action needed."),
     "   - Consult a nutritionist for personalized diet plan",
     "   - Aim for gradual weight loss (1-2 lbs/week)",
     "   - Combine cardio and strength training exercises"]
  else if level = "moderate" then
    ["⚖️ WEIGHT MANAGEMENT: " ++ (fmt1 s ++ "% risk - Moderate. Room for improvement."),
     "   - Maintain calorie balance and portion control",
     "   - Increase daily physical activity"]
  else if level = "low" then
    ["⚖️ WEIGHT MANAGEMENT: " ++ (fmt1 s ++ "% risk - Low. Healthy weight!"),
     "   - Maintain current healthy eating patterns"]
  else []

/-- The general block of HealthScorer.generate_recommendations, emitted
only when all four levels are low. -/
def summary_recs (h d hy o : ℚ) : List String :=
  if get_risk_level h = "low" ∧ get_risk_level d = "low" ∧
      get_risk_level hy = "low" ∧ get_risk_level o = "low" then
    ["✅ EXCELLENT OVERALL HEALTH STATUS!",
     "   - Continue maintaining healthy lifestyle habits",
     "   - Regular health checkups for prevention"]
  else []

/-- Embeds HealthScorer.generate_recommendations: reads the four scores
(KeyError on a missing condition), then appends the four per-condition
blocks in source order followed by the conditional general block. -/
def generate_recommendations (risk_scores : RDict) : Except String (List String) :=
  match rget risk_scores "heart" with
  | Except.error e => Except.error e
  | Except.ok h =>
    match rget risk_scores "diabetes" with
    | Except.error e => Except.error e
    | Except.ok d =>
      match rget risk_scores "hypertension" with
      | Except.error e => Except.error e
      | Except.ok hy =>
        match rget risk_scores "obesity" with
        | Except.error e => Except.error e
        | Except.ok o =>
          Except.ok (heart_recs h ++ diabetes_recs d ++ hypertension_recs hy ++
            obesity_recs o ++ summary_recs h d hy o)

end HealthScorer

namespace HeartModel

/-- Age factor of the clinical rule in HeartModel.get_risk_score
(lines 123-134): 0 to 20 points. -/
def age_points (age : ℚ) : ℚ :=
  if 65 ≤ age then 20 else if 55 ≤ age then 15
  else if 45 ≤ age then 10 else if 35 ≤ age then 5 else 0

/-- Resting blood pressure factor (lines 136-149): 0 to 20 points. -/
def bp_points (bp : ℚ) : ℚ :=
  if 180 ≤ bp then 20 else if 160 ≤ bp then 15 else if 140 ≤ bp then 10
  else if 130 ≤ bp then 5 else if 120 ≤ bp then 2 else 0

/-- Cholesterol factor (lines 151-164): 0 to 20 points. -/
def chol_points (chol : ℚ) : ℚ :=
  if 280 ≤ chol then 20 else if 240 ≤ chol then 15 else if 220 ≤ chol then 10
  else if 200 ≤ chol then 5 else if 180 ≤ chol then 2 else 0

/-- Achieved versus expected maximum heart rate factor (lines 166-179):
0 to 15 points, against the expected maximum 220 minus age. -/
def hr_points (max_hr age : ℚ) : ℚ :=
  if max_hr < (220 - age) * 0.65 then 15
  else if max_hr < (220 - age) * 0.75 then 10
  else if max_hr < (220 - age) * 0.85 then 5
  else if max_hr < (220 - age) * 0.90 then 2 else 0

/-- Fasting blood sugar factor (lines 181-184): 10 points when the fbs
flag equals 1. -/
def fbs_points (fbs : ℚ) : ℚ := if fbs = 1 then 10 else 0

/-- Chest-pain-type factor (lines 186-195): 15, 10, 5 or 0 points for
types 0, 1, 2 and anything else. -/
def cp_points (cp : ℚ) : ℚ :=
  if cp = 0 then 15 else if cp = 1 then 10 else if cp = 2 then 5 else 0

/-- The clinical-rule accumulator of HeartModel.get_risk_score
(lines 120-196) as the pair (risk_factors, max_factors). The five
unconditional factors always enter max_factors; the chest-pain factor
enters both only when cp, read with sentinel default -1, is nonnegative.
Age is read twice exactly as in the source: with default 0 for the age
factor and default 30 for the expected maximum heart rate. -/
def clinical_factors (features : Features) : ℚ × ℚ :=
  let r1 := age_points (fget features "age" 0)
  let r2 := bp_points (fget features "trestbps" 120)
  let r3 := chol_points (fget features "chol" 200)
  let r4 := hr_points (fget features "thalach" 150) (fget features "age" 30)
  let r5 := fbs_points (fget features "fbs" 0)
  let cp := fget features "cp" (-1)
  if 0 ≤ cp then
    (r1 + r2 + r3 + r4 + r5 + cp_points cp, 20 + 20 + 20 + 15 + 10 + 15)
  else
    (r1 + r2 + r3 + r4 + r5, 20 + 20 + 20 + 15 + 10)

/-- The clinical risk percentage of HeartModel.get_risk_score (line 198):
risk_factors over max_factors as a percentage, with the source fallback
value 50 for an empty denominator. -/
def clinical_risk (features : Features) : ℚ :=
  let rf := clinical_factors features
  if 0 < rf.2 then rf.1 / rf.2 * 100 else 50

/-- Embeds HeartModel.get_risk_score (lines 109-205): 30 percent of the
classifier probability (as a percentage) plus 70 percent of the clinical
risk, rounded to two decimals. The classifier probability is the output of
the external pickled model, passed as a parameter. -/
def get_risk_score (probability : ℚ) (features : Features) : ℚ :=
  let ml_risk := probability * 100
  round2 (ml_risk * 0.30 + clinical_risk features * 0.70)

end HeartModel

namespace ObesityModel

/-- The BMI bucket ladder of ObesityModel.get_risk_score (lines 131-153). -/
def bmi_bucket (bmi : ℚ) : ℚ :=
  if bmi < 18.5 then 25
  else if bmi < 25 then 5
  else if bmi < 27 then 35
  else if bmi < 30 then 50
  else if bmi < 35 then 70
  else if bmi < 40 then 85
  else 95

/-- The class_risk_mapping table of ObesityModel.get_risk_score
(lines 159-167). -/
def class_risk_mapping : List (ℤ × ℚ) :=
  [(0, 25), (1, 5), (2, 35), (3, 50), (4, 70), (5, 85), (6, 95)]

/-- Embeds ObesityModel.get_risk_score (lines 121-174): BMI from the
Height (meters) and Weight (kg) features, the BMI bucket score blended
80/20 with the class-to-risk mapping of the classifier prediction (dict
get with default 50), rounded to two decimals. Height 0 raises
ZeroDivisionError in the source; the prediction is the output of the
external pickled model, passed as a parameter. -/
def get_risk_score (prediction : ℤ) (features : Features) : Except String ℚ :=
  let height := fget features "Height" 1.7
  let weight := fget features "Weight" 70
  if height = 0 then Except.error "ZeroDivisionError"
  else
    let bmi := weight / height ^ 2
    let model_risk := (assocD prediction class_risk_mapping).getD 50
    Except.ok (round2 (bmi_bucket bmi * 0.80 + model_risk * 0.20))

/-- Claim-side table of C8: the fixed seven-entry class-to-risk mapping,
written as a case ladder on the class. -/
def class_risk_table (c : ℤ) : ℚ :=
  if c = 0 then 25 else if c = 1 then 5 else if c = 2 then 35
  else if c = 3 then 50 else if c = 4 then 70 else if c = 5 then 85
  else if c = 6 then 95 else 0

end ObesityModel

/-- Scenario A input of the spec: the four risk scores of the worked
example. -/
def scenarioA : HealthScorer.RDict :=
  [("heart", 65.5), ("diabetes", 42.0), ("hypertension", 58.3), ("obesity", 35.0)]

/-- Scenario E input of the spec: heart features with age 70, resting
blood pressure 185, cholesterol 290, maximum heart rate 90 (below 65
percent of the expected 150), fbs flag 1, and no cp key. -/
def scenarioE_features : Features :=
  [("age", 70), ("trestbps", 185), ("chol", 290), ("thalach", 90), ("fbs", 1)]

/-- Scenario D input of the spec: obesity features with height 1.75 meters
and weight 95 kg. -/
def scenarioD_features : Features :=
  [("Height", 1.75), ("Weight", 95)]

/-- A well-typed user record used as the concrete witness input for the
feature-mapper claims. -/
def demoUser : PyDict :=
  [("age", PyVal.num 45), ("gender", PyVal.str "Male"),
   ("height", PyVal.num 175), ("weight", PyVal.num 85)]

/-- A risk-score dict with all four conditions at 10 percent. -/
def allLowScores : HealthScorer.RDict :=
  [("heart", 10), ("diabetes", 10), ("hypertension", 10), ("obesity", 10)]

/-- A risk-score dict missing the obesity condition. -/
def threeScores : HealthScorer.RDict :=
  [("heart", 10), ("diabetes", 10), ("hypertension", 10)]

/-! ## Helper lemmas -/

theorem round2_mono {a b : ℚ} (h : a ≤ b) : round2 a ≤ round2 b := by
  unfold round2
  have hr : round (a * 100) ≤ round (b * 100) := by
    rw [round_eq, round_eq]
    exact Int.floor_le_floor (by linarith)
  have hq : ((round (a * 100) : ℤ) : ℚ) ≤ ((round (b * 100) : ℤ) : ℚ) := by exact_mod_cast hr
  linarith

theorem round2_zero : round2 0 = 0 := by norm_num [round2, round_eq]

theorem round2_hundred : round2 100 = 100 := by norm_num [round2, round_eq]

theorem round2_intCast_div (m : ℤ) : round2 ((m : ℚ) / 100) = (m : ℚ) / 100 := by
  unfold round2
  rw [div_mul_cancel₀ _ (by norm_num : (100 : ℚ) ≠ 0), round_intCast]

/-- Rounding a two-decimal rational to two decimals is the identity, so
100 minus an already rounded composite risk is returned unchanged by
calculate_health_score. -/
theorem round2_sub_round2 (q : ℚ) : round2 (100 - round2 q) = 100 - round2 q := by
  have h : 100 - round2 q = ((10000 - round (q * 100) : ℤ) : ℚ) / 100 := by
    unfold round2
    push_cast
    ring
  rw [h, round2_intCast_div]

theorem thresholdOf_low : HealthScorer.thresholdOf "low" = 30 := rfl

theorem thresholdOf_moderate : HealthScorer.thresholdOf "moderate" = 50 := rfl

theorem thresholdOf_high : HealthScorer.thresholdOf "high" = 70 := rfl

theorem thresholdOf_critical : HealthScorer.thresholdOf "critical" = 85 := rfl

theorem weightOf_all : HealthScorer.weightOf "heart" = 0.25 ∧ HealthScorer.weightOf "diabetes" = 0.25 ∧
    HealthScorer.weightOf "hypertension" = 0.25 ∧ HealthScorer.weightOf "obesity" = 0.25 :=
  ⟨rfl, rfl, rfl, rfl⟩

/-- The risk level is always one of the five tier strings. -/
theorem get_risk_level_cases (x : ℚ) :
    HealthScorer.get_risk_level x = "low" ∨ HealthScorer.get_risk_level x = "moderate" ∨
    HealthScorer.get_risk_level x = "high" ∨ HealthScorer.get_risk_level x = "very high" ∨
    HealthScorer.get_risk_level x = "critical" := by
  unfold HealthScorer.get_risk_level
  split_ifs <;> simp

theorem calculate_bmi_num (h w : ℚ) (hne : h ≠ 0) :
    FeatureMapper.calculate_bmi (PyVal.num h) (PyVal.num w) =
      Except.ok (round2 (w / (h / 100) ^ 2)) := by
  simp [FeatureMapper.calculate_bmi, hne]

theorem pyLower_ok_of_keyStr (u : PyDict) (k f : String)
    (h : FeatureMapper.keyStr u k = true) :
    ∃ s, pyLower (pyGet u k (PyVal.str f)) = Except.ok s := by
  unfold FeatureMapper.keyStr at h
  unfold pyGet
  cases e : assocD k u with
  | none => exact ⟨_, rfl⟩
  | some v =>
    rw [e] at h
    cases v with
    | str s => exact ⟨_, rfl⟩
    | num q => simp at h

theorem pyGt_ok_of_keyNum (u : PyDict) (k : String) (f b : ℚ)
    (h : FeatureMapper.keyNum u k = true) :
    ∃ r, pyGtNum (pyGet u k (PyVal.num f)) b = Except.ok r := by
  unfold FeatureMapper.keyNum at h
  unfold pyGet
  cases e : assocD k u with
  | none => exact ⟨_, rfl⟩
  | some v =>
    rw [e] at h
    cases v with
    | num q => exact ⟨_, rfl⟩
    | str s => simp at h

theorem pyDiv_ok_of_keyNum (u : PyDict) (k : String) (f c : ℚ)
    (h : FeatureMapper.keyNum u k = true) :
    ∃ r, pyDivNum (pyGet u k (PyVal.num f)) c = Except.ok r := by
  unfold FeatureMapper.keyNum at h
  unfold pyGet
  cases e : assocD k u with
  | none => exact ⟨_, rfl⟩
  | some v =>
    rw [e] at h
    cases v with
    | num q => exact ⟨_, rfl⟩
    | str s => simp at h

theorem keyNum_of_keyNumNZ (u : PyDict) (k : String)
    (h : FeatureMapper.keyNumNZ u k = true) : FeatureMapper.keyNum u k = true := by
  unfold FeatureMapper.keyNumNZ at h
  unfold FeatureMapper.keyNum
  cases e : assocD k u with
  | none => rfl
  | some v =>
    rw [e] at h
    cases v with
    | num q => rfl
    | str s => simp at h

theorem calculate_bmi_ok (u : PyDict)
    (hh : FeatureMapper.keyNumNZ u "height" = true)
    (hw : FeatureMapper.keyNum u "weight" = true) :
    ∃ q, FeatureMapper.calculate_bmi (pyGet u "height" (PyVal.num 170))
      (pyGet u "weight" (PyVal.num 70)) = Except.ok q := by
  unfold FeatureMapper.keyNumNZ at hh
  unfold FeatureMapper.keyNum at hw
  unfold pyGet
  cases e1 : assocD "height" u with
  | none =>
    cases e2 : assocD "weight" u with
    | none =>
      exact ⟨_, by simp only [Option.getD] ; exact calculate_bmi_num 170 70 (by norm_num)⟩
    | some v =>
      rw [e2] at hw
      cases v with
      | num w =>
        exact ⟨_, by simp only [Option.getD] ; exact calculate_bmi_num 170 w (by norm_num)⟩
      | str s => simp at hw
  | some v =>
    rw [e1] at hh
    cases v with
    | str s => simp at hh
    | num hq =>
      have hne : hq ≠ 0 := by simpa using hh
      cases e2 : assocD "weight" u with
      | none =>
        exact ⟨_, by simp only [Option.getD] ; exact calculate_bmi_num hq 70 hne⟩
      | some w =>
        rw [e2] at hw
        cases w with
        | num wq =>
          exact ⟨_, by simp only [Option.getD] ; exact calculate_bmi_num hq wq hne⟩
        | str s => simp at hw

/-! ## Claim theorems -/

/-- C1: for the Scenario A risk scores the HealthScorer produces
composite_risk 50.2 and health_score 49.8 as claimed, but the risk level
of 50.2 is not moderate and the health grade of 49.8 is not D: the claim
fails at its own concrete input. -/
theorem c1_counterexample :
    HealthScorer.calculate_composite_risk scenarioA = Except.ok 50.2 ∧
    HealthScorer.calculate_health_score scenarioA = Except.ok 49.8 ∧
    HealthScorer.get_risk_level 50.2 ≠ "moderate" ∧
    HealthScorer.get_health_grade 49.8 ≠ "D" := by
  have hc : HealthScorer.calculate_composite_risk scenarioA = Except.ok 50.2 := by
    unfold HealthScorer.calculate_composite_risk HealthScorer.rget
    norm_num +decide [scenarioA, assocD, HealthScorer.weightOf, HealthScorer.weights, round2, round_eq]
  refine ⟨hc, ?_, ?_, ?_⟩
  · unfold HealthScorer.calculate_health_score
    rw [hc]
    norm_num [round2, round_eq]
  · unfold HealthScorer.get_risk_level
    norm_num +decide [HealthScorer.thresholdOf, HealthScorer.risk_thresholds, assocD]
  · unfold HealthScorer.get_health_grade
    norm_num
    decide

/-- C1 amended: for the Scenario A risk scores under the equal 0.25
weights the HealthScorer produces composite_risk 50.2, health_score 49.8,
risk level high (50.2 is at the moderate threshold 50, and the ladder is
exclusive above) and health grade F (49.8 is below the D breakpoint 50). -/
theorem c1_amended :
    HealthScorer.calculate_composite_risk scenarioA = Except.ok 50.2 ∧
    HealthScorer.calculate_health_score scenarioA = Except.ok 49.8 ∧
    HealthScorer.get_risk_level 50.2 = "high" ∧
    HealthScorer.get_health_grade 49.8 = "F" := by
  have hc : HealthScorer.calculate_composite_risk scenarioA = Except.ok 50.2 := by
    unfold HealthScorer.calculate_composite_risk HealthScorer.rget
    norm_num +decide [scenarioA, assocD, HealthScorer.weightOf, HealthScorer.weights, round2, round_eq]
  refine ⟨hc, ?_, ?_, ?_⟩
  · unfold HealthScorer.calculate_health_score
    rw [hc]
    norm_num [round2, round_eq]
  · unfold HealthScorer.get_risk_level
    norm_num +decide [HealthScorer.thresholdOf, HealthScorer.risk_thresholds, assocD]
  · unfold HealthScorer.get_health_grade
    norm_num

/-- C6: the function is monotonic with the claimed boundaries, but the
fourth tier string returned by the code is "very high" with a space, not
"very_high": the claim fails at input 75. -/
theorem c6_counterexample :
    HealthScorer.get_risk_level 75 = "very high" ∧
    HealthScorer.get_risk_level 75 ≠ "very_high" := by
  constructor <;>
    · unfold HealthScorer.get_risk_level
      norm_num +decide [HealthScorer.thresholdOf, HealthScorer.risk_thresholds, assocD]

/-- C6 amended: get_risk_level is monotonic non-decreasing and partitions
the line into exactly five contiguous buckets with boundaries 30, 50, 70
and 85, returning low below 30, moderate below 50, high below 70,
"very high" (with a space) below 85 and critical from 85 up. -/
theorem c6_amended (a b x : ℚ) (hab : a ≤ b) :
    HealthScorer.level_index (HealthScorer.get_risk_level a) ≤
      HealthScorer.level_index (HealthScorer.get_risk_level b) ∧
    (HealthScorer.get_risk_level x = "low" ↔ x < 30) ∧
    (HealthScorer.get_risk_level x = "moderate" ↔ 30 ≤ x ∧ x < 50) ∧
    (HealthScorer.get_risk_level x = "high" ↔ 50 ≤ x ∧ x < 70) ∧
    (HealthScorer.get_risk_level x = "very high" ↔ 70 ≤ x ∧ x < 85) ∧
    (HealthScorer.get_risk_level x = "critical" ↔ 85 ≤ x) := by
  unfold HealthScorer.get_risk_level
  rw [thresholdOf_low, thresholdOf_moderate, thresholdOf_high, thresholdOf_critical]
  constructor
  · split_ifs <;> simp +decide [HealthScorer.level_index] <;> linarith
  · rcases lt_or_le x 30 with h30 | h30
    · rw [if_pos h30]
      refine ⟨?_, ?_, ?_, ?_, ?_⟩ <;> simp +decide <;>
        first | linarith | (constructor <;> linarith) | (rintro ⟨c1, c2⟩ ; linarith) | (intro c ; linarith)
    · rw [if_neg (not_lt.mpr h30)]
      rcases lt_or_le x 50 with h50 | h50
      · rw [if_pos h50]
        refine ⟨?_, ?_, ?_, ?_, ?_⟩ <;> simp +decide <;>
          first | linarith | (constructor <;> linarith) | (rintro ⟨c1, c2⟩ ; linarith) | (intro c ; linarith)
      · rw [if_neg (not_lt.mpr h50)]
        rcases lt_or_le x 70 with h70 | h70
        · rw [if_pos h70]
          refine ⟨?_, ?_, ?_, ?_, ?_⟩ <;> simp +decide <;>
            first | linarith | (constructor <;> linarith) | (rintro ⟨c1, c2⟩ ; linarith) | (intro c ; linarith)
        · rw [if_neg (not_lt.mpr h70)]
          rcases lt_or_le x 85 with h85 | h85
          · rw [if_pos h85]
            refine ⟨?_, ?_, ?_, ?_, ?_⟩ <;> simp +decide <;>
              first | linarith | (constructor <;> linarith) | (rintro ⟨c1, c2⟩ ; linarith) | (intro c ; linarith)
          · rw [if_neg (not_lt.mpr h85)]
            refine ⟨?_, ?_, ?_, ?_, ?_⟩ <;> simp +decide <;>
              first | linarith | (constructor <;> linarith) | (rintro ⟨c1, c2⟩ ; linarith) | (intro c ; linarith)

/-- C6 witness: the amended theorem applied at a = 10, b = 95, x = 75. -/
theorem c6_witness :
    HealthScorer.level_index (HealthScorer.get_risk_level 10) ≤
      HealthScorer.level_index (HealthScorer.get_risk_level 95) ∧
    (HealthScorer.get_risk_level 75 = "low" ↔ (75 : ℚ) < 30) ∧
    (HealthScorer.get_risk_level 75 = "moderate" ↔ (30 : ℚ) ≤ 75 ∧ (75 : ℚ) < 50) ∧
    (HealthScorer.get_risk_level 75 = "high" ↔ (50 : ℚ) ≤ 75 ∧ (75 : ℚ) < 70) ∧
    (HealthScorer.get_risk_level 75 = "very high" ↔ (70 : ℚ) ≤ 75 ∧ (75 : ℚ) < 85) ∧
    (HealthScorer.get_risk_level 75 = "critical" ↔ (85 : ℚ) ≤ 75) :=
  c6_amended 10 95 75 (by norm_num)

/-- C7: a risk-score dict missing the obesity condition makes
calculate_composite_risk fail, but with the builtin KeyError of the Python
dict subscript, not with an IncompleteAssessment error (no such exception
exists in the code). -/
theorem c7_counterexample :
    HealthScorer.calculate_composite_risk threeScores = Except.error "KeyError: obesity" ∧
    "KeyError: obesity" ≠ "IncompleteAssessment" := by
  constructor
  · rfl
  · decide

/-- C7 amended: calculate_composite_risk requires all four condition
scores; when any of the four keys is missing it fails with a KeyError on
the dict subscript rather than silently treating the missing score as
zero. -/
theorem c7_amended (rs : HealthScorer.RDict)
    (h : assocD "heart" rs = none ∨ assocD "diabetes" rs = none ∨
      assocD "hypertension" rs = none ∨ assocD "obesity" rs = none) :
    ∃ e, HealthScorer.calculate_composite_risk rs = Except.error e := by
  unfold HealthScorer.calculate_composite_risk HealthScorer.rget
  rcases h with h | h | h | h
  · rw [h]
    exact ⟨_, rfl⟩
  · cases e1 : assocD "heart" rs
    · exact ⟨_, rfl⟩
    · rw [h]
      exact ⟨_, rfl⟩
  · cases e1 : assocD "heart" rs
    · exact ⟨_, rfl⟩
    · cases e2 : assocD "diabetes" rs
      · exact ⟨_, rfl⟩
      · rw [h]
        exact ⟨_, rfl⟩
  · cases e1 : assocD "heart" rs
    · exact ⟨_, rfl⟩
    · cases e2 : assocD "diabetes" rs
      · exact ⟨_, rfl⟩
      · cases e3 : assocD "hypertension" rs
        · exact ⟨_, rfl⟩
        · rw [h]
          exact ⟨_, rfl⟩

/-- C7 witness: the amended theorem applied to the dict missing the
obesity score. -/
theorem c7_witness : ∃ e, HealthScorer.calculate_composite_risk threeScores = Except.error e :=
  c7_amended threeScores (Or.inr (Or.inr (Or.inr rfl)))

/-- C2: the Feature Mapper operations are not total over mixed-type
records: a numeric gender value reaches the lower() call of
map_to_heart_features and raises AttributeError instead of falling back to
a default, so the claim fails at this input. -/
theorem c2_counterexample :
    FeatureMapper.map_to_heart_features [("gender", PyVal.num 1)] =
      Except.error "AttributeError: lower" := rfl

/-- C2 amended: for every user record whose type-sensitive fields are well
typed (height, weight and fasting glucose numeric with height nonzero;
gender, diabetes family history and exercise-induced angina strings when
present — all other fields arbitrary and any field may be absent), all
four mapper operations succeed and return a fully populated feature
record with exactly the required feature names in order. A wrongly typed
field propagates the exception instead: there is no
conversion-with-fallback in the code. -/
theorem c2_amended (u : PyDict) (hu : FeatureMapper.wellTypedUser u = true) :
    (∃ f, FeatureMapper.map_to_diabetes_features u = Except.ok f ∧
      f.map Prod.fst = FeatureMapper.diabetes_features) ∧
    (∃ f, FeatureMapper.map_to_heart_features u = Except.ok f ∧
      f.map Prod.fst = FeatureMapper.heart_features) ∧
    (∃ f, FeatureMapper.map_to_hypertension_features u = Except.ok f ∧
      f.map Prod.fst = FeatureMapper.hypertension_features) ∧
    (∃ f, FeatureMapper.map_to_obesity_features u = Except.ok f ∧
      f.map Prod.fst = FeatureMapper.obesity_features) := by
  unfold FeatureMapper.wellTypedUser at hu
  simp only [Bool.and_eq_true] at hu
  obtain ⟨⟨⟨⟨⟨hh, hwt⟩, hfg⟩, hg⟩, hfh⟩, hex⟩ := hu
  obtain ⟨bq, hbmi⟩ := calculate_bmi_ok u hh hwt
  obtain ⟨fh, hfhv⟩ := pyLower_ok_of_keyStr u "family_history_diabetes" "no" hfh
  obtain ⟨g, hgv⟩ := pyLower_ok_of_keyStr u "gender" "male" hg
  obtain ⟨fgb, hfgv⟩ := pyGt_ok_of_keyNum u "fasting_glucose" 100 120 hfg
  obtain ⟨ex, hexv⟩ := pyLower_ok_of_keyStr u "exercise_induced_angina" "no" hex
  obtain ⟨hm, hdiv⟩ := pyDiv_ok_of_keyNum u "height" 170 100 (keyNum_of_keyNumNZ u "height" hh)
  refine ⟨?_, ?_, ?_, ?_⟩
  · unfold FeatureMapper.map_to_diabetes_features
    rw [hbmi, hfhv]
    exact ⟨_, rfl, rfl⟩
  · unfold FeatureMapper.map_to_heart_features
    rw [hgv, hfgv, hexv]
    exact ⟨_, rfl, rfl⟩
  · unfold FeatureMapper.map_to_hypertension_features
    rw [hbmi]
    exact ⟨_, rfl, rfl⟩
  · unfold FeatureMapper.map_to_obesity_features
    rw [hdiv]
    exact ⟨_, rfl, rfl⟩

/-- C2 witness: the amended theorem applied to a concrete well-typed user
record. -/
theorem c2_amended_witness :
    FeatureMapper.wellTypedUser demoUser = true ∧
    ((∃ f, FeatureMapper.map_to_diabetes_features demoUser = Except.ok f ∧
      f.map Prod.fst = FeatureMapper.diabetes_features) ∧
    (∃ f, FeatureMapper.map_to_heart_features demoUser = Except.ok f ∧
      f.map Prod.fst = FeatureMapper.heart_features) ∧
    (∃ f, FeatureMapper.map_to_hypertension_features demoUser = Except.ok f ∧
      f.map Prod.fst = FeatureMapper.hypertension_features) ∧
    (∃ f, FeatureMapper.map_to_obesity_features demoUser = Except.ok f ∧
      f.map Prod.fst = FeatureMapper.obesity_features)) :=
  ⟨rfl, c2_amended demoUser rfl⟩

/-- C3: evaluation of the pipeline at a user record without the
chest_pain_type field. The mapper fills cp with the literal default 0
(typical angina), so the heart model sees cp as explicitly provided: the
clinical denominator is 100, not the claimed 85, and the absent field
contributes 15 risk points instead of being excluded. -/
theorem c3_pipeline_counts_cp :
    ∃ hf, FeatureMapper.map_to_heart_features [] = Except.ok hf ∧
      assocD "cp" hf = some (PyVal.num 0) ∧
      HeartModel.clinical_factors (toNumFeatures hf) = (27, 100) ∧
      (HeartModel.clinical_factors (toNumFeatures hf)).2 ≠ 85 := by
  refine ⟨_, rfl, rfl, ?_, ?_⟩ <;>
    norm_num +decide [FeatureMapper.map_to_heart_features, pyGet, pyLower, pyGtNum, assocD,
      toNumFeatures, HeartModel.clinical_factors, fget, HeartModel.age_points,
      HeartModel.bp_points, HeartModel.chol_points, HeartModel.hr_points,
      HeartModel.fbs_points, HeartModel.cp_points, List.filterMap]

theorem age_points_bounds (a : ℚ) : 0 ≤ HeartModel.age_points a ∧ HeartModel.age_points a ≤ 20 := by
  unfold HeartModel.age_points
  split_ifs <;> norm_num

theorem bp_points_bounds (a : ℚ) : 0 ≤ HeartModel.bp_points a ∧ HeartModel.bp_points a ≤ 20 := by
  unfold HeartModel.bp_points
  split_ifs <;> norm_num

theorem chol_points_bounds (a : ℚ) : 0 ≤ HeartModel.chol_points a ∧ HeartModel.chol_points a ≤ 20 := by
  unfold HeartModel.chol_points
  split_ifs <;> norm_num

theorem hr_points_bounds (a b : ℚ) : 0 ≤ HeartModel.hr_points a b ∧ HeartModel.hr_points a b ≤ 15 := by
  unfold HeartModel.hr_points
  split_ifs <;> norm_num

theorem fbs_points_bounds (a : ℚ) : 0 ≤ HeartModel.fbs_points a ∧ HeartModel.fbs_points a ≤ 10 := by
  unfold HeartModel.fbs_points
  split_ifs <;> norm_num

theorem cp_points_bounds (a : ℚ) : 0 ≤ HeartModel.cp_points a ∧ HeartModel.cp_points a ≤ 15 := by
  unfold HeartModel.cp_points
  split_ifs <;> norm_num

/-- The clinical accumulator written as the sum of the six factor scores
over the applicable maximum: the five unconditional caps always count,
the chest-pain cap only when the cp key was supplied. -/
theorem clinical_factors_eq (f : Features) :
    HeartModel.clinical_factors f =
      (HeartModel.age_points (fget f "age" 0) + HeartModel.bp_points (fget f "trestbps" 120) +
        HeartModel.chol_points (fget f "chol" 200) +
        HeartModel.hr_points (fget f "thalach" 150) (fget f "age" 30) +
        HeartModel.fbs_points (fget f "fbs" 0) +
        (if 0 ≤ fget f "cp" (-1) then HeartModel.cp_points (fget f "cp" (-1)) else 0),
       85 + if 0 ≤ fget f "cp" (-1) then 15 else 0) := by
  unfold HeartModel.clinical_factors
  split_ifs with hcp <;> simp [Prod.mk.injEq, hcp] <;> first | linarith | norm_num

theorem clinical_factors_snd_pos (f : Features) : 0 < (HeartModel.clinical_factors f).2 := by
  rw [clinical_factors_eq]
  simp only
  split_ifs <;> norm_num

theorem clinical_risk_eq (f : Features) :
    HeartModel.clinical_risk f =
      (HeartModel.clinical_factors f).1 / (HeartModel.clinical_factors f).2 * 100 := by
  unfold HeartModel.clinical_risk
  rw [if_pos (clinical_factors_snd_pos f)]

/-- C4: HeartModel.get_risk_score is the 30/70 blend of the classifier
probability (as a percentage) with the clinical rule score, rounded to the
two decimals the source returns; the clinical rule score is the sum of the
six independently capped factors normalized to a percentage of the
applicable maximum (85 plus 15 exactly when cp is present); and on the
Scenario E features (age 70, trestbps 185, chol 290, thalach below 65
percent of expected, fbs 1, no cp key) the clinical score is 100. -/
theorem c4_heart_blend :
    (∀ (p : ℚ) (f : Features), HeartModel.get_risk_score p f =
        round2 (0.30 * (p * 100) + 0.70 * HeartModel.clinical_risk f)) ∧
    (∀ f : Features, HeartModel.clinical_risk f =
        (HeartModel.age_points (fget f "age" 0) + HeartModel.bp_points (fget f "trestbps" 120) +
          HeartModel.chol_points (fget f "chol" 200) +
          HeartModel.hr_points (fget f "thalach" 150) (fget f "age" 30) +
          HeartModel.fbs_points (fget f "fbs" 0) +
          (if 0 ≤ fget f "cp" (-1) then HeartModel.cp_points (fget f "cp" (-1)) else 0)) /
        (85 + if 0 ≤ fget f "cp" (-1) then 15 else 0) * 100) ∧
    HeartModel.clinical_risk scenarioE_features = 100 := by
  refine ⟨?_, ?_, ?_⟩
  · intro p f
    unfold HeartModel.get_risk_score
    congr 1
    ring
  · intro f
    rw [clinical_risk_eq, clinical_factors_eq]
  · unfold HeartModel.clinical_risk HeartModel.clinical_factors
    norm_num +decide [scenarioE_features, fget, assocD, HeartModel.age_points,
      HeartModel.bp_points, HeartModel.chol_points, HeartModel.hr_points,
      HeartModel.fbs_points, HeartModel.cp_points]

/-- C10: the clinical denominator is at least 85 (the five unconditional
factors always contribute their caps), hence nonzero, so the division
branch is always taken (the max_factors = 0 fallback of 50 is unreachable)
and the clinical risk percentage lies in the interval from 0 to 100. -/
theorem c10_denominator (f : Features) :
    85 ≤ (HeartModel.clinical_factors f).2 ∧
    (HeartModel.clinical_factors f).2 ≠ 0 ∧
    HeartModel.clinical_risk f =
      (HeartModel.clinical_factors f).1 / (HeartModel.clinical_factors f).2 * 100 ∧
    0 ≤ HeartModel.clinical_risk f ∧ HeartModel.clinical_risk f ≤ 100 := by
  obtain ⟨a1, a2⟩ := age_points_bounds (fget f "age" 0)
  obtain ⟨b1, b2⟩ := bp_points_bounds (fget f "trestbps" 120)
  obtain ⟨c1, c2⟩ := chol_points_bounds (fget f "chol" 200)
  obtain ⟨d1, d2⟩ := hr_points_bounds (fget f "thalach" 150) (fget f "age" 30)
  obtain ⟨e1, e2⟩ := fbs_points_bounds (fget f "fbs" 0)
  obtain ⟨g1, g2⟩ := cp_points_bounds (fget f "cp" (-1))
  have h85 : 85 ≤ (HeartModel.clinical_factors f).2 := by
    rw [clinical_factors_eq]
    simp only
    split_ifs <;> norm_num
  have hpos : 0 < (HeartModel.clinical_factors f).2 := lt_of_lt_of_le (by norm_num) h85
  have hnum : 0 ≤ (HeartModel.clinical_factors f).1 := by
    rw [clinical_factors_eq]
    simp only
    split_ifs <;> linarith
  have hle : (HeartModel.clinical_factors f).1 ≤ (HeartModel.clinical_factors f).2 := by
    rw [clinical_factors_eq]
    simp only
    split_ifs <;> linarith
  refine ⟨h85, ne_of_gt hpos, clinical_risk_eq f, ?_, ?_⟩
  · rw [clinical_risk_eq]
    exact mul_nonneg (div_nonneg hnum hpos.le) (by norm_num)
  · rw [clinical_risk_eq]
    have hdiv : (HeartModel.clinical_factors f).1 / (HeartModel.clinical_factors f).2 ≤ 1 :=
      (div_le_one hpos).mpr hle
    linarith

/-- C5: for every risk-score dict containing all four conditions with
values between 0 and 100, the health score equals 100 minus the composite
risk exactly, and both lie in the interval from 0 to 100. -/
theorem c5_health_inverse (rs : HealthScorer.RDict) (h d hy o : ℚ)
    (eh : assocD "heart" rs = some h) (ed : assocD "diabetes" rs = some d)
    (ey : assocD "hypertension" rs = some hy) (eo : assocD "obesity" rs = some o)
    (h0 : 0 ≤ h) (h1 : h ≤ 100) (d0 : 0 ≤ d) (d1 : d ≤ 100)
    (y0 : 0 ≤ hy) (y1 : hy ≤ 100) (o0 : 0 ≤ o) (o1 : o ≤ 100) :
    ∃ c s, HealthScorer.calculate_composite_risk rs = Except.ok c ∧
      HealthScorer.calculate_health_score rs = Except.ok s ∧
      s = 100 - c ∧ 0 ≤ c ∧ c ≤ 100 ∧ 0 ≤ s ∧ s ≤ 100 := by
  have hcomp : HealthScorer.calculate_composite_risk rs =
      Except.ok (round2 (h * 0.25 + d * 0.25 + hy * 0.25 + o * 0.25)) := by
    unfold HealthScorer.calculate_composite_risk HealthScorer.rget
    rw [eh, ed, ey, eo]
    rfl
  have hW0 : (0 : ℚ) ≤ h * 0.25 + d * 0.25 + hy * 0.25 + o * 0.25 := by linarith
  have hW1 : h * 0.25 + d * 0.25 + hy * 0.25 + o * 0.25 ≤ 100 := by linarith
  have hc0 : 0 ≤ round2 (h * 0.25 + d * 0.25 + hy * 0.25 + o * 0.25) := by
    have hm := round2_mono hW0
    rw [round2_zero] at hm
    exact hm
  have hc1 : round2 (h * 0.25 + d * 0.25 + hy * 0.25 + o * 0.25) ≤ 100 := by
    have hm := round2_mono hW1
    rw [round2_hundred] at hm
    exact hm
  have hhealth : HealthScorer.calculate_health_score rs =
      Except.ok (100 - round2 (h * 0.25 + d * 0.25 + hy * 0.25 + o * 0.25)) := by
    unfold HealthScorer.calculate_health_score
    rw [hcomp]
    exact congrArg Except.ok (round2_sub_round2 _)
  exact ⟨_, _, hcomp, hhealth, rfl, hc0, hc1, by linarith, by linarith⟩

/-- C5 witness: the theorem applied to the Scenario A risk scores. -/
theorem c5_witness :
    ∃ c s, HealthScorer.calculate_composite_risk scenarioA = Except.ok c ∧
      HealthScorer.calculate_health_score scenarioA = Except.ok s ∧
      s = 100 - c ∧ 0 ≤ c ∧ c ≤ 100 ∧ 0 ≤ s ∧ s ≤ 100 :=
  c5_health_inverse scenarioA 65.5 42.0 58.3 35.0 rfl rfl rfl rfl
    (by norm_num) (by norm_num) (by norm_num) (by norm_num)
    (by norm_num) (by norm_num) (by norm_num) (by norm_num)

/-- C8: ObesityModel.get_risk_score is the 80/20 blend of the BMI bucket
score with the fixed class-to-risk table (for the seven classifier classes
0 to 6), rounded to the two decimals the source returns; in particular at
height 1.75 m and weight 95 kg with classifier class 4 the result is
exactly 70. -/
theorem c8_obesity_blend :
    (∀ (c : ℤ) (f : Features), 0 ≤ c → c ≤ 6 → fget f "Height" 1.7 ≠ 0 →
        ObesityModel.get_risk_score c f =
          Except.ok (round2 (0.80 *
            ObesityModel.bmi_bucket (fget f "Weight" 70 / fget f "Height" 1.7 ^ 2) +
            0.20 * ObesityModel.class_risk_table c))) ∧
    ObesityModel.get_risk_score 4 scenarioD_features = Except.ok 70 := by
  constructor
  · intro c f hc0 hc6 hh
    have htab : (assocD c ObesityModel.class_risk_mapping).getD 50 =
        ObesityModel.class_risk_table c := by
      interval_cases c <;> rfl
    simp only [ObesityModel.get_risk_score]
    rw [if_neg hh, htab]
    refine congrArg Except.ok ?_
    congr 1
    ring
  · unfold ObesityModel.get_risk_score
    norm_num +decide [scenarioD_features, fget, assocD, ObesityModel.bmi_bucket,
      ObesityModel.class_risk_mapping, round2, round_eq]

/-- C8 witness: the blend formula applied at the Scenario D input with
classifier class 4. -/
theorem c8_witness :
    ObesityModel.get_risk_score 4 scenarioD_features =
      Except.ok (round2 (0.80 *
        ObesityModel.bmi_bucket (fget scenarioD_features "Weight" 70 /
          fget scenarioD_features "Height" 1.7 ^ 2) +
        0.20 * ObesityModel.class_risk_table 4)) :=
  c8_obesity_blend.1 4 scenarioD_features (by norm_num) (by norm_num)
    (by norm_num +decide [fget, assocD, scenarioD_features])

theorem heart_recs_head (s : ℚ) :
    HealthScorer.heart_recs s ≠ [] ∧
      ∃ t, (HealthScorer.heart_recs s).headI = "🫀 HEART HEALTH: " ++ t := by
  unfold HealthScorer.heart_recs
  rcases get_risk_level_cases s with h | h | h | h | h <;> rw [h] <;>
    exact ⟨by simp +decide, by simp +decide⟩

theorem diabetes_recs_head (s : ℚ) :
    HealthScorer.diabetes_recs s ≠ [] ∧
      ∃ t, (HealthScorer.diabetes_recs s).headI = "🩸 DIABETES: " ++ t := by
  unfold HealthScorer.diabetes_recs
  rcases get_risk_level_cases s with h | h | h | h | h <;> rw [h] <;>
    exact ⟨by simp +decide, by simp +decide⟩

theorem hypertension_recs_head (s : ℚ) :
    HealthScorer.hypertension_recs s ≠ [] ∧
      ∃ t, (HealthScorer.hypertension_recs s).headI = "💊 BLOOD PRESSURE: " ++ t := by
  unfold HealthScorer.hypertension_recs
  rcases get_risk_level_cases s with h | h | h | h | h <;> rw [h] <;>
    exact ⟨by simp +decide, by simp +decide⟩

theorem obesity_recs_head (s : ℚ) :
    HealthScorer.obesity_recs s ≠ [] ∧
      ∃ t, (HealthScorer.obesity_recs s).headI = "⚖️ WEIGHT MANAGEMENT: " ++ t := by
  unfold HealthScorer.obesity_recs
  rcases get_risk_level_cases s with h | h | h | h | h <;> rw [h] <;>
    exact ⟨by simp +decide, by simp +decide⟩

/-- C9: for every four-entry risk-score dict, generate_recommendations
returns the per-condition blocks in the fixed order heart, diabetes,
hypertension, obesity — each block nonempty and opening with its
condition headline — followed by the excellent-overall-health block
exactly when all four risk levels are low. -/
theorem c9_order (rs : HealthScorer.RDict) (h d hy o : ℚ)
    (eh : assocD "heart" rs = some h) (ed : assocD "diabetes" rs = some d)
    (ey : assocD "hypertension" rs = some hy) (eo : assocD "obesity" rs = some o) :
    ∃ B1 B2 B3 B4,
      HealthScorer.generate_recommendations rs =
        Except.ok (B1 ++ B2 ++ B3 ++ B4 ++
          (if HealthScorer.get_risk_level h = "low" ∧ HealthScorer.get_risk_level d = "low" ∧
              HealthScorer.get_risk_level hy = "low" ∧ HealthScorer.get_risk_level o = "low" then
            ["✅ EXCELLENT OVERALL HEALTH STATUS!",
             "   - Continue maintaining healthy lifestyle habits",
             "   - Regular health checkups for prevention"]
          else [])) ∧
      (B1 ≠ [] ∧ ∃ t, B1.headI = "🫀 HEART HEALTH: " ++ t) ∧
      (B2 ≠ [] ∧ ∃ t, B2.headI = "🩸 DIABETES: " ++ t) ∧
      (B3 ≠ [] ∧ ∃ t, B3.headI = "💊 BLOOD PRESSURE: " ++ t) ∧
      (B4 ≠ [] ∧ ∃ t, B4.headI = "⚖️ WEIGHT MANAGEMENT: " ++ t) := by
  refine ⟨HealthScorer.heart_recs h, HealthScorer.diabetes_recs d,
    HealthScorer.hypertension_recs hy, HealthScorer.obesity_recs o, ?_,
    heart_recs_head h, diabetes_recs_head d, hypertension_recs_head hy, obesity_recs_head o⟩
  unfold HealthScorer.generate_recommendations HealthScorer.rget
  rw [eh, ed, ey, eo]
  rfl

/-- C9 witness: the theorem applied to the all-low risk-score dict. -/
theorem c9_witness :
    ∃ B1 B2 B3 B4,
      HealthScorer.generate_recommendations allLowScores =
        Except.ok (B1 ++ B2 ++ B3 ++ B4 ++
          (if HealthScorer.get_risk_level 10 = "low" ∧ HealthScorer.get_risk_level 10 = "low" ∧
              HealthScorer.get_risk_level 10 = "low" ∧ HealthScorer.get_risk_level 10 = "low" then
            ["✅ EXCELLENT OVERALL HEALTH STATUS!",
             "   - Continue maintaining healthy lifestyle habits",
             "   - Regular health checkups for prevention"]
          else [])) ∧
      (B1 ≠ [] ∧ ∃ t, B1.headI = "🫀 HEART HEALTH: " ++ t) ∧
      (B2 ≠ [] ∧ ∃ t, B2.headI = "🩸 DIABETES: " ++ t) ∧
      (B3 ≠ [] ∧ ∃ t, B3.headI = "💊 BLOOD PRESSURE: " ++ t) ∧
      (B4 ≠ [] ∧ ∃ t, B4.headI = "⚖️ WEIGHT MANAGEMENT: " ++ t) :=
  c9_order allLowScores 10 10 10 10 rfl rfl rfl rfl
